import Mathlib

/-!
Verification of the Component Inspector's value-normalization and
class/style generation pipeline (`hooks.ts`, `PreviewBox.tsx`).

The TypeScript sources are shallowly embedded: each structure below mirrors
the `InspectorState` record as it is read by the generators, strings stay
strings (`List Char` for character-level reasoning), JS numbers used by the
state are whole integers and are modelled as `Int`, and every function is a
direct transcription of the corresponding source function.
-/

namespace Inspector

/-! ## Character-list text utilities (JS string primitive semantics) -/

/-- Whitespace predicate used by JS `String.prototype.trim`. -/
def wsChar (c : Char) : Bool := c.isWhitespace

/-- JS `str.trim()`: drop whitespace from both ends of the character list. -/
def trimList (l : List Char) : List Char :=
  ((l.dropWhile wsChar).reverse.dropWhile wsChar).reverse

/-- JS `str.split(sep)` for a one-character separator: splitting the empty
string yields `[[]]`, and separators at the ends produce empty segments,
exactly as in JS. -/
def splitOnChar (sep : Char) : List Char → List (List Char)
  | [] => [[]]
  | c :: rest =>
    match splitOnChar sep rest with
    | [] => [[]]
    | s :: ss => if c = sep then [] :: s :: ss else (c :: s) :: ss

/-- JS camel-casing of a hyphenated CSS property name, the global replace of
the pattern "hyphen then `([a-z])`" with `g[1].toUpperCase()`: every hyphen
followed by an ASCII lowercase letter becomes that letter uppercased. -/
def camelizeChars : List Char → List Char
  | [] => []
  | ['-'] => ['-']
  | '-' :: c :: rest =>
    if 'a' ≤ c ∧ c ≤ 'z' then c.toUpper :: camelizeChars rest
    else '-' :: camelizeChars (c :: rest)
  | c :: rest => c :: camelizeChars rest

/-- The character class of the regex `/^([\d.-]+)/` used by
`normalizeNumericValue`: a digit, a dot, or a hyphen. -/
def numClassChar (c : Char) : Bool := c.isDigit || c = '.' || c = '-'

/-- JS `[...new Set(xs)]`: deduplicate keeping the first occurrence of each
element, preserving insertion order. -/
def firstDedupAux (seen : List String) : List String → List String
  | [] => []
  | a :: rest =>
    if seen.contains a then firstDedupAux seen rest
    else a :: firstDedupAux (a :: seen) rest

/-- Insertion-order first-occurrence-wins deduplication (JS `new Set`). -/
def firstDedup (l : List String) : List String := firstDedupAux [] l

/-- Character-list form of JS `String.prototype.startsWith`. -/
def listStarts : List Char → List Char → Bool
  | [], _ => true
  | _ :: _, [] => false
  | c :: cs, d :: ds => c == d && listStarts cs ds

/-- JS `s.startsWith(pre)`. -/
def jsStartsWith (s pre : String) : Bool := listStarts pre.data s.data

/-- `containsStr hay sub` holds when `sub` occurs as a contiguous substring
of `hay`. -/
def containsStr (hay sub : String) : Prop := sub.data <:+: hay.data

instance (hay sub : String) : Decidable (containsStr hay sub) :=
  inferInstanceAs (Decidable (sub.data <:+: hay.data))

/-! ## Value Normalizer (`normalizeNumericValue`, hooks.ts lines 286-292;
the identical copy in PreviewBox.tsx lines 469-475) -/

/-- The JS value domain of `normalizeNumericValue`:
`string | number | null | undefined`.  The numbers stored by the inspector
state are whole integers, so the number case is modelled as `Int`. -/
inductive JSVal where
  | vstr (s : String)
  | vnum (n : Int)
  | vnull
  | vundef
deriving DecidableEq

/-- JS falsiness of a `JSVal` (the `if (!value)` guard): `null`, `undefined`,
the empty string and the number `0` are falsy. -/
def jsFalsy : JSVal → Bool
  | .vstr s => s == ""
  | .vnum n => n == 0
  | .vnull => true
  | .vundef => true

/-- JS `String(value)` on the `JSVal` domain. -/
def jsToString : JSVal → String
  | .vstr s => s
  | .vnum n => toString n
  | .vnull => "null"
  | .vundef => "undefined"

/-- `normalizeNumericValue` (hooks.ts lines 286-292):
`if (!value) return ''; const str = String(value).trim();
const numMatch = str.match(/^([\d.-]+)/); return numMatch ? numMatch[1] : str;`
The regex group is the maximal leading run of characters from `[\d.-]`. -/
def normalizeNumericValue (v : JSVal) : String :=
  if jsFalsy v then "" else
    let str := trimList (jsToString v).data
    let m := str.takeWhile numClassChar
    if m = [] then String.mk str else String.mk m

/-- All generator call sites pass strings to `normalizeNumericValue`. -/
def normalizeStr (v : String) : String := normalizeNumericValue (JSVal.vstr v)

/-- Modelled from the spec: the spec (§4.1) describes the normalizer as
matching "the longest prefix matching `[-]?[0-9]*[.]?[0-9]+`".  This
reference definition follows the spec's words (greedy regex with
backtracking: optional sign, a digit run, and at most one dot that must be
followed by a digit), for comparison with `normalizeNumericValue` above. -/
def specLeadingNumeric (l : List Char) : List Char :=
  let sgnRest : List Char × List Char :=
    match l with
    | '-' :: t => (['-'], t)
    | _ => ([], l)
  let d1 := sgnRest.2.takeWhile Char.isDigit
  let r1 := sgnRest.2.dropWhile Char.isDigit
  match r1 with
  | '.' :: t =>
    let d2 := t.takeWhile Char.isDigit
    if d2 ≠ [] then sgnRest.1 ++ d1 ++ '.' :: d2
    else if d1 ≠ [] then sgnRest.1 ++ d1 else []
  | _ => if d1 ≠ [] then sgnRest.1 ++ d1 else []

/-- Modelled from the spec: `normalizeNumericValue` as §4.1 describes it,
with the decimal-literal regex in place of the source's `[\d.-]+` class. -/
def specNormalizeNumericValue (v : JSVal) : String :=
  if jsFalsy v then "" else
    let str := trimList (jsToString v).data
    let m := specLeadingNumeric str
    if m = [] then String.mk str else String.mk m

/-! ## Data model (`InspectorState`, as read by the hooks in hooks.ts).
String-valued fields hold the raw stored text; the numeric fields
(transforms, effects, radius) hold whole integers. -/

structure Padding where
  l : String
  t : String
  r : String
  b : String
deriving DecidableEq

structure Margin where
  x : String
  y : String
deriving DecidableEq

structure PositionState where
  type : String
  zIndex : String
  l : String
  t : String
  r : String
  b : String
deriving DecidableEq

structure SizeState where
  width : String
  height : String
  maxWidth : String
  maxHeight : String
  minWidth : String
  minHeight : String
deriving DecidableEq

structure Typography where
  fontFamily : String
  fontWeight : String
  fontSize : String
  letterSpacing : String
  lineHeight : String
  textAlign : String
  textColor : String
deriving DecidableEq

structure Transforms where
  rotate : Int
  scale : Int
  translateX : Int
  translateY : Int
  skewX : Int
  skewY : Int
deriving DecidableEq

structure Transforms3D where
  rotateX : Int
  rotateY : Int
  rotateZ : Int
  perspective : Int
deriving DecidableEq

structure Effects where
  opacity : Int
  blur : Int
  backdropBlur : Int
  hueRotate : Int
  saturation : Int
  brightness : Int
  contrast : Int
  grayscale : Int
  invert : Int
  sepia : Int
  shadow : String
deriving DecidableEq

/-- Border radius: `all` plus the per-corner values (corner field names
modelled from the spec's "radius{all,...per-corner}"; only `all` is read by
the hooks under verification). -/
structure BorderRadius where
  all : Int
  tl : Int
  tr : Int
  br : Int
  bl : Int
deriving DecidableEq

structure Border where
  width : String
  style : String
  color : String
  radius : BorderRadius
deriving DecidableEq

structure Appearance where
  backgroundColor : String
  backgroundImage : String
  blendMode : String
deriving DecidableEq

structure InspectorState where
  padding : Padding
  margin : Margin
  position : PositionState
  size : SizeState
  typography : Typography
  transforms : Transforms
  transforms3D : Transforms3D
  effects : Effects
  border : Border
  appearance : Appearance
  tag : String
  elementId : String
  textContent : String
  link : String
  inlineCSS : String
  tailwindClasses : List String
deriving DecidableEq

/-! ## Partial state (`Partial<InspectorState>` override records).
The per-breakpoint override objects are built incrementally by
`updateNestedState`/`updateDeepNestedState`, so a present group may itself
contain only some of its keys: every field is optional. -/

structure PartialPadding where
  l : Option String := none
  t : Option String := none
  r : Option String := none
  b : Option String := none

structure PartialMargin where
  x : Option String := none
  y : Option String := none

structure PartialPositionState where
  type : Option String := none
  zIndex : Option String := none
  l : Option String := none
  t : Option String := none
  r : Option String := none
  b : Option String := none

structure PartialSizeState where
  width : Option String := none
  height : Option String := none
  maxWidth : Option String := none
  maxHeight : Option String := none
  minWidth : Option String := none
  minHeight : Option String := none

structure PartialTypography where
  fontFamily : Option String := none
  fontWeight : Option String := none
  fontSize : Option String := none
  letterSpacing : Option String := none
  lineHeight : Option String := none
  textAlign : Option String := none
  textColor : Option String := none

structure PartialTransforms where
  rotate : Option Int := none
  scale : Option Int := none
  translateX : Option Int := none
  translateY : Option Int := none
  skewX : Option Int := none
  skewY : Option Int := none

structure PartialTransforms3D where
  rotateX : Option Int := none
  rotateY : Option Int := none
  rotateZ : Option Int := none
  perspective : Option Int := none

structure PartialEffects where
  opacity : Option Int := none
  blur : Option Int := none
  backdropBlur : Option Int := none
  hueRotate : Option Int := none
  saturation : Option Int := none
  brightness : Option Int := none
  contrast : Option Int := none
  grayscale : Option Int := none
  invert : Option Int := none
  sepia : Option Int := none
  shadow : Option String := none

structure PartialBorderRadius where
  all : Option Int := none
  tl : Option Int := none
  tr : Option Int := none
  br : Option Int := none
  bl : Option Int := none

structure PartialBorder where
  width : Option String := none
  style : Option String := none
  color : Option String := none
  radius : Option PartialBorderRadius := none

structure PartialAppearance where
  backgroundColor : Option String := none
  backgroundImage : Option String := none
  blendMode : Option String := none

structure PartialInspectorState where
  padding : Option PartialPadding := none
  margin : Option PartialMargin := none
  position : Option PartialPositionState := none
  size : Option PartialSizeState := none
  typography : Option PartialTypography := none
  transforms : Option PartialTransforms := none
  transforms3D : Option PartialTransforms3D := none
  effects : Option PartialEffects := none
  border : Option PartialBorder := none
  appearance : Option PartialAppearance := none
  tag : Option String := none
  elementId : Option String := none
  textContent : Option String := none
  link : Option String := none
  inlineCSS : Option String := none
  tailwindClasses : Option (List String) := none

/-- The empty override record `{}`. -/
def emptyPartial : PartialInspectorState := {}

/-- JS `Object.keys(bpState).length > 0`: does the override record have any
top-level key? -/
def partialHasKeys (p : PartialInspectorState) : Bool :=
  p.padding.isSome || p.margin.isSome || p.position.isSome || p.size.isSome ||
  p.typography.isSome || p.transforms.isSome || p.transforms3D.isSome ||
  p.effects.isSome || p.border.isSome || p.appearance.isSome ||
  p.tag.isSome || p.elementId.isSome || p.textContent.isSome ||
  p.link.isSome || p.inlineCSS.isSome || p.tailwindClasses.isSome

/-! ## Breakpoints and the state store -/

/-- The responsive breakpoints; `x2l` stands for the source's `'2xl'`
(a Lean constructor cannot start with a digit). -/
inductive Breakpoint where
  | base
  | sm
  | md
  | lg
  | xl
  | x2l
deriving DecidableEq

/-- `Record<Breakpoint, Partial<InspectorState>>` (`BreakpointStates`). -/
structure BreakpointStates where
  base : PartialInspectorState
  sm : PartialInspectorState
  md : PartialInspectorState
  lg : PartialInspectorState
  xl : PartialInspectorState
  x2l : PartialInspectorState

/-- `breakpointStates[bp]`. -/
def getBP (bps : BreakpointStates) : Breakpoint → PartialInspectorState
  | .base => bps.base
  | .sm => bps.sm
  | .md => bps.md
  | .lg => bps.lg
  | .xl => bps.xl
  | .x2l => bps.x2l

/-- `{ ...prev, [bp]: p }`. -/
def setBP (bps : BreakpointStates) (bp : Breakpoint) (p : PartialInspectorState) :
    BreakpointStates :=
  match bp with
  | .base => { bps with base := p }
  | .sm => { bps with sm := p }
  | .md => { bps with md := p }
  | .lg => { bps with lg := p }
  | .xl => { bps with xl := p }
  | .x2l => { bps with x2l := p }

/-- The record with all six breakpoint buckets empty (the hook's initial
`breakpointStates` value). -/
def emptyBPStates : BreakpointStates :=
  ⟨emptyPartial, emptyPartial, emptyPartial, emptyPartial, emptyPartial, emptyPartial⟩

/-- The spread-merge of `getEffectiveState` (hooks.ts lines 33-53):
`{ ...state, ...bpState, padding: { ...state.padding, ...bpState.padding },
…, border: { ...state.border, ...bpState.border,
radius: { ...state.border.radius, ...bpState.border?.radius } }, … }` —
the override wins key by key, with one level of recursion into each named
group and one more level into `border.radius`. -/
def mergeState (base : InspectorState) (p : PartialInspectorState) : InspectorState :=
  { padding :=
      match p.padding with
      | none => base.padding
      | some pp =>
        { l := pp.l.getD base.padding.l
          t := pp.t.getD base.padding.t
          r := pp.r.getD base.padding.r
          b := pp.b.getD base.padding.b }
    margin :=
      match p.margin with
      | none => base.margin
      | some pm =>
        { x := pm.x.getD base.margin.x
          y := pm.y.getD base.margin.y }
    position :=
      match p.position with
      | none => base.position
      | some pp =>
        { type := pp.type.getD base.position.type
          zIndex := pp.zIndex.getD base.position.zIndex
          l := pp.l.getD base.position.l
          t := pp.t.getD base.position.t
          r := pp.r.getD base.position.r
          b := pp.b.getD base.position.b }
    size :=
      match p.size with
      | none => base.size
      | some ps =>
        { width := ps.width.getD base.size.width
          height := ps.height.getD base.size.height
          maxWidth := ps.maxWidth.getD base.size.maxWidth
          maxHeight := ps.maxHeight.getD base.size.maxHeight
          minWidth := ps.minWidth.getD base.size.minWidth
          minHeight := ps.minHeight.getD base.size.minHeight }
    typography :=
      match p.typography with
      | none => base.typography
      | some pt =>
        { fontFamily := pt.fontFamily.getD base.typography.fontFamily
          fontWeight := pt.fontWeight.getD base.typography.fontWeight
          fontSize := pt.fontSize.getD base.typography.fontSize
          letterSpacing := pt.letterSpacing.getD base.typography.letterSpacing
          lineHeight := pt.lineHeight.getD base.typography.lineHeight
          textAlign := pt.textAlign.getD base.typography.textAlign
          textColor := pt.textColor.getD base.typography.textColor }
    transforms :=
      match p.transforms with
      | none => base.transforms
      | some pt =>
        { rotate := pt.rotate.getD base.transforms.rotate
          scale := pt.scale.getD base.transforms.scale
          translateX := pt.translateX.getD base.transforms.translateX
          translateY := pt.translateY.getD base.transforms.translateY
          skewX := pt.skewX.getD base.transforms.skewX
          skewY := pt.skewY.getD base.transforms.skewY }
    transforms3D :=
      match p.transforms3D with
      | none => base.transforms3D
      | some pt =>
        { rotateX := pt.rotateX.getD base.transforms3D.rotateX
          rotateY := pt.rotateY.getD base.transforms3D.rotateY
          rotateZ := pt.rotateZ.getD base.transforms3D.rotateZ
          perspective := pt.perspective.getD base.transforms3D.perspective }
    effects :=
      match p.effects with
      | none => base.effects
      | some pe =>
        { opacity := pe.opacity.getD base.effects.opacity
          blur := pe.blur.getD base.effects.blur
          backdropBlur := pe.backdropBlur.getD base.effects.backdropBlur
          hueRotate := pe.hueRotate.getD base.effects.hueRotate
          saturation := pe.saturation.getD base.effects.saturation
          brightness := pe.brightness.getD base.effects.brightness
          contrast := pe.contrast.getD base.effects.contrast
          grayscale := pe.grayscale.getD base.effects.grayscale
          invert := pe.invert.getD base.effects.invert
          sepia := pe.sepia.getD base.effects.sepia
          shadow := pe.shadow.getD base.effects.shadow }
    border :=
      match p.border with
      | none => base.border
      | some pb =>
        { width := pb.width.getD base.border.width
          style := pb.style.getD base.border.style
          color := pb.color.getD base.border.color
          radius :=
            match pb.radius with
            | none => base.border.radius
            | some pr =>
              { all := pr.all.getD base.border.radius.all
                tl := pr.tl.getD base.border.radius.tl
                tr := pr.tr.getD base.border.radius.tr
                br := pr.br.getD base.border.radius.br
                bl := pr.bl.getD base.border.radius.bl } }
    appearance :=
      match p.appearance with
      | none => base.appearance
      | some pa =>
        { backgroundColor := pa.backgroundColor.getD base.appearance.backgroundColor
          backgroundImage := pa.backgroundImage.getD base.appearance.backgroundImage
          blendMode := pa.blendMode.getD base.appearance.blendMode }
    tag := p.tag.getD base.tag
    elementId := p.elementId.getD base.elementId
    textContent := p.textContent.getD base.textContent
    link := p.link.getD base.link
    inlineCSS := p.inlineCSS.getD base.inlineCSS
    tailwindClasses := p.tailwindClasses.getD base.tailwindClasses }

/-- `getEffectiveState` (hooks.ts lines 33-53).  In the source it closes over
the hook's `state` and `breakpointStates`; they are explicit arguments
here. -/
def getEffectiveState (state : InspectorState) (bps : BreakpointStates)
    (bp : Breakpoint) : InspectorState :=
  mergeState state (getBP bps bp)

/-- The two pieces of state held by `useInspectorState`: the base state and
the per-breakpoint override records. -/
structure InspectorStore where
  state : InspectorState
  breakpointStates : BreakpointStates

/-- `clearBreakpointOverrides` (hooks.ts lines 222-230): when `bp` is not
`'base'`, replace that breakpoint's override record with `{}`; when `bp` is
`'base'`, no setter is called and nothing changes. -/
def clearBreakpointOverrides (st : InspectorStore) (bp : Breakpoint) : InspectorStore :=
  if bp = Breakpoint.base then st
  else { st with breakpointStates := setBP st.breakpointStates bp emptyPartial }

/-! ## Number rendering helpers.
JS renders the whole-integer state values with `toString`, and renders
`n / 100` (float division) in shortest decimal form.  For integer `n` the
shortest representation of the double `n / 100` is the exact decimal with at
most two fractional digits, which is what `fmtDiv100` produces. -/

/-- JS string interpolation of the float `n / 100` for a whole integer `n`
(e.g. `150 / 100` renders as `"1.5"`, `7 / 100` as `"0.07"`,
`-50 / 100` as `"-0.5"`). -/
def fmtDiv100 (n : Int) : String :=
  let m := n.natAbs
  let sign := if n < 0 then "-" else ""
  let f := m % 100
  if f = 0 then sign ++ toString (m / 100)
  else if f % 10 = 0 then sign ++ toString (m / 100) ++ "." ++ toString (f / 10)
  else sign ++ toString (m / 100) ++ "." ++ toString (f / 10) ++ toString (f % 10)

/-! ## Class Generator (`useGeneratedClasses`, hooks.ts lines 321-399; the
same body appears in the hot-fix copy, part_001 lines 10-111).  Each
source `if (cond) classes.push(tok)` line becomes a conditional singleton;
the group definitions mirror the source's comment-delimited blocks. -/

/-- Breakpoint class prefix: empty for `base`, `"<bp>:"` otherwise. -/
def bpPre : Breakpoint → String
  | .base => ""
  | .sm => "sm:"
  | .md => "md:"
  | .lg => "lg:"
  | .xl => "xl:"
  | .x2l => "2xl:"

/-- Padding block (hooks.ts lines 327-336): normalized value, emitted in
bracket notation with a `px` suffix when truthy and not `'0'`. -/
def paddingClasses (s : InspectorState) (pre : String) : List String :=
  let pl := normalizeStr s.padding.l
  let pt := normalizeStr s.padding.t
  let pr := normalizeStr s.padding.r
  let pb := normalizeStr s.padding.b
  (if pl ≠ "" ∧ pl ≠ "0" then [pre ++ "pl-[" ++ pl ++ "px]"] else []) ++
  (if pt ≠ "" ∧ pt ≠ "0" then [pre ++ "pt-[" ++ pt ++ "px]"] else []) ++
  (if pr ≠ "" ∧ pr ≠ "0" then [pre ++ "pr-[" ++ pr ++ "px]"] else []) ++
  (if pb ≠ "" ∧ pb ≠ "0" then [pre ++ "pb-[" ++ pb ++ "px]"] else [])

/-- Margin block (hooks.ts lines 338-343). -/
def marginClasses (s : InspectorState) (pre : String) : List String :=
  let mx := normalizeStr s.margin.x
  let my := normalizeStr s.margin.y
  (if mx ≠ "" ∧ mx ≠ "0" then [pre ++ "mx-[" ++ mx ++ "px]"] else []) ++
  (if my ≠ "" ∧ my ≠ "0" then [pre ++ "my-[" ++ my ++ "px]"] else [])

/-- `if (state.position.type !== 'static') classes.push(prefix + type)`
(hooks.ts line 346). -/
def positionTypeClass (s : InspectorState) (pre : String) : List String :=
  if s.position.type ≠ "static" then [pre ++ s.position.type] else []

/-- Position block (hooks.ts lines 345-351). -/
def positionClasses (s : InspectorState) (pre : String) : List String :=
  positionTypeClass s pre ++
  (if s.position.zIndex ≠ "" then
    [pre ++ "z-[" ++ normalizeStr s.position.zIndex ++ "]"] else []) ++
  (if s.position.l ≠ "" then
    [pre ++ "left-[" ++ normalizeStr s.position.l ++ "px]"] else []) ++
  (if s.position.t ≠ "" then
    [pre ++ "top-[" ++ normalizeStr s.position.t ++ "px]"] else []) ++
  (if s.position.r ≠ "" then
    [pre ++ "right-[" ++ normalizeStr s.position.r ++ "px]"] else []) ++
  (if s.position.b ≠ "" then
    [pre ++ "bottom-[" ++ normalizeStr s.position.b ++ "px]"] else [])

/-- Size block (hooks.ts lines 353-359): the raw stored value is placed in
the brackets verbatim — no normalization and no unit suffix. -/
def sizeClasses (s : InspectorState) (pre : String) : List String :=
  (if s.size.width ≠ "" then [pre ++ "w-[" ++ s.size.width ++ "]"] else []) ++
  (if s.size.height ≠ "" then [pre ++ "h-[" ++ s.size.height ++ "]"] else []) ++
  (if s.size.maxWidth ≠ "" then [pre ++ "max-w-[" ++ s.size.maxWidth ++ "]"] else []) ++
  (if s.size.maxHeight ≠ "" then [pre ++ "max-h-[" ++ s.size.maxHeight ++ "]"] else []) ++
  (if s.size.minWidth ≠ "" then [pre ++ "min-w-[" ++ s.size.minWidth ++ "]"] else []) ++
  (if s.size.minHeight ≠ "" then [pre ++ "min-h-[" ++ s.size.minHeight ++ "]"] else [])

/-- Typography block (hooks.ts lines 361-367). -/
def typographyClasses (s : InspectorState) (pre : String) : List String :=
  (if s.typography.fontFamily ≠ "inter" then
    [pre ++ "font-" ++ s.typography.fontFamily] else []) ++
  (if s.typography.fontWeight ≠ "normal" then
    [pre ++ "font-" ++ s.typography.fontWeight] else []) ++
  (if s.typography.fontSize ≠ "" then
    [pre ++ "text-[" ++ s.typography.fontSize ++ "]"] else []) ++
  (if s.typography.letterSpacing ≠ "normal" then
    [pre ++ "tracking-" ++ s.typography.letterSpacing] else []) ++
  (if s.typography.lineHeight ≠ "" then
    [pre ++ "leading-[" ++ s.typography.lineHeight ++ "]"] else []) ++
  (if s.typography.textAlign ≠ "left" then
    [pre ++ "text-" ++ s.typography.textAlign] else [])

/-- Transforms block (hooks.ts lines 369-375). -/
def transformClasses (s : InspectorState) (pre : String) : List String :=
  (if s.transforms.rotate ≠ 0 then
    [pre ++ "rotate-[" ++ toString s.transforms.rotate ++ "deg]"] else []) ++
  (if s.transforms.scale ≠ 100 then
    [pre ++ "scale-[" ++ fmtDiv100 s.transforms.scale ++ "]"] else []) ++
  (if s.transforms.translateX ≠ 0 then
    [pre ++ "translate-x-[" ++ toString s.transforms.translateX ++ "px]"] else []) ++
  (if s.transforms.translateY ≠ 0 then
    [pre ++ "translate-y-[" ++ toString s.transforms.translateY ++ "px]"] else []) ++
  (if s.transforms.skewX ≠ 0 then
    [pre ++ "skew-x-[" ++ toString s.transforms.skewX ++ "deg]"] else []) ++
  (if s.transforms.skewY ≠ 0 then
    [pre ++ "skew-y-[" ++ toString s.transforms.skewY ++ "deg]"] else [])

/-- `if (state.effects.opacity !== 100) classes.push(prefix + 'opacity-[' +
opacity/100 + ']')` (hooks.ts line 378). -/
def opacityClass (s : InspectorState) (pre : String) : List String :=
  if s.effects.opacity ≠ 100 then
    [pre ++ "opacity-[" ++ fmtDiv100 s.effects.opacity ++ "]"] else []

/-- Effects block (hooks.ts lines 377-388). -/
def effectClasses (s : InspectorState) (pre : String) : List String :=
  opacityClass s pre ++
  (if s.effects.blur > 0 then
    [pre ++ "blur-[" ++ toString s.effects.blur ++ "px]"] else []) ++
  (if s.effects.backdropBlur > 0 then
    [pre ++ "backdrop-blur-[" ++ toString s.effects.backdropBlur ++ "px]"] else []) ++
  (if s.effects.hueRotate ≠ 0 then
    [pre ++ "hue-rotate-[" ++ toString s.effects.hueRotate ++ "deg]"] else []) ++
  (if s.effects.saturation ≠ 100 then
    [pre ++ "saturate-[" ++ fmtDiv100 s.effects.saturation ++ "]"] else []) ++
  (if s.effects.brightness ≠ 100 then
    [pre ++ "brightness-[" ++ fmtDiv100 s.effects.brightness ++ "]"] else []) ++
  (if s.effects.contrast ≠ 100 then
    [pre ++ "contrast-[" ++ fmtDiv100 s.effects.contrast ++ "]"] else []) ++
  (if s.effects.grayscale > 0 then
    [pre ++ "grayscale-[" ++ fmtDiv100 s.effects.grayscale ++ "]"] else []) ++
  (if s.effects.invert > 0 then
    [pre ++ "invert-[" ++ fmtDiv100 s.effects.invert ++ "]"] else []) ++
  (if s.effects.sepia > 0 then
    [pre ++ "sepia-[" ++ fmtDiv100 s.effects.sepia ++ "]"] else []) ++
  (if s.effects.shadow ≠ "none" then
    [pre ++ "shadow-" ++ s.effects.shadow] else [])

/-- Border block (hooks.ts lines 390-393). -/
def borderClasses (s : InspectorState) (pre : String) : List String :=
  (if s.border.radius.all > 0 then
    [pre ++ "rounded-[" ++ toString s.border.radius.all ++ "px]"] else []) ++
  (if s.border.width ≠ "" ∧ s.border.width ≠ "0" then
    [pre ++ "border-[" ++ normalizeStr s.border.width ++ "px]"] else []) ++
  (if s.border.style ≠ "solid" ∧ s.border.style ≠ "none" then
    [pre ++ "border-" ++ s.border.style] else [])

/-- All tokens pushed by `useGeneratedClasses`, in source order, ending with
the user-supplied literal classes appended verbatim. -/
def classTokens (s : InspectorState) (bp : Breakpoint) : List String :=
  let pre := bpPre bp
  paddingClasses s pre ++ marginClasses s pre ++ positionClasses s pre ++
  sizeClasses s pre ++ typographyClasses s pre ++ transformClasses s pre ++
  effectClasses s pre ++ borderClasses s pre ++ s.tailwindClasses

/-- `useGeneratedClasses` (hooks.ts lines 321-399):
`classes.filter(Boolean).join(' ')`. -/
def useGeneratedClasses (s : InspectorState) (bp : Breakpoint) : String :=
  String.intercalate " " ((classTokens s bp).filter (fun c => !(c == "")))

/-! ## `isTailwindToken` / `getTailwindClass`
(PreviewBox.tsx lines 480-550; hooks.ts lines 295-318 holds an older inline
variant of `getTailwindClass` that is never called). -/

/-- Standard Tailwind spacing tokens (PreviewBox.tsx line 484). -/
def spacingTokens : List String :=
  ["0", "1", "2", "3", "4", "6", "8", "10", "12", "14", "16", "20", "24",
   "28", "32", "36", "40", "44", "48", "52", "56", "60", "64", "72", "80", "96"]

/-- Standard opacity tokens (PreviewBox.tsx line 487). -/
def opacityTokens : List String :=
  ["0", "5", "10", "20", "25", "30", "40", "50", "60", "70", "75", "80",
   "90", "95", "100"]

/-- `isTailwindToken` (PreviewBox.tsx lines 480-498). -/
def isTailwindToken (property value : String) : Bool :=
  let numValue := normalizeStr value
  if jsStartsWith property "opacity-" then opacityTokens.contains numValue
  else if jsStartsWith property "p-" || jsStartsWith property "m-" ||
          jsStartsWith property "gap-" then spacingTokens.contains numValue
  else false

/-- Models `(Number(numValue) / 100).toFixed(2)` from PreviewBox.tsx
line 536.  `Number` parsing and float `toFixed` are approximated for
integer-valued strings (the only shape the app stores for opacity); the
claims under verification never evaluate this branch. -/
def opacityFixed2 (s : String) : String :=
  let n := (s.toInt?).getD 0
  let m := n.natAbs
  (if n < 0 then "-" else "") ++ toString (m / 100) ++ "." ++
    toString ((m % 100) / 10) ++ toString (m % 10)

/-- `getTailwindClass` (PreviewBox.tsx lines 503-550). -/
def getTailwindClass (property value : String) (bp : Breakpoint) : String :=
  if value = "" ∨ value = "0" then "" else
  let pre := bpPre bp
  let numValue := normalizeStr value
  if jsStartsWith property "p-" || jsStartsWith property "m-" then
    if isTailwindToken property numValue then pre ++ property ++ "-" ++ numValue
    else pre ++ property ++ "-[" ++ numValue ++ "px]"
  else if jsStartsWith property "gap-" then
    if isTailwindToken "gap-" numValue then pre ++ property ++ "-" ++ numValue
    else pre ++ property ++ "-[" ++ numValue ++ "px]"
  else if jsStartsWith property "opacity-" then
    if isTailwindToken property numValue then pre ++ property ++ "-" ++ numValue
    else pre ++ property ++ "-[" ++ opacityFixed2 numValue ++ "]"
  else if jsStartsWith property "left-" || jsStartsWith property "top-" ||
          jsStartsWith property "right-" || jsStartsWith property "bottom-" ||
          jsStartsWith property "w-" || jsStartsWith property "h-" ||
          jsStartsWith property "max-w-" || jsStartsWith property "max-h-" ||
          jsStartsWith property "min-w-" || jsStartsWith property "min-h-" then
    pre ++ property ++ "-[" ++ numValue ++ "px]"
  else pre ++ property

/-! ## Multi-Breakpoint Aggregator (`useAllBreakpointClasses`,
hooks.ts lines 402-426) -/

/-- `useAllBreakpointClasses` (hooks.ts lines 402-426), transcribed as it
is: for each breakpoint in order, when it is `base` or its override record
has keys, the "simplified" body emits only the padding-left token
`prefix + 'pl-' + padding.l` (the source comment reads "add more as
needed"); the collected tokens are deduplicated with a `Set` and joined.
The `baseState` argument is unused by the source body as well. -/
def useAllBreakpointClasses (baseState : InspectorState) (bps : BreakpointStates)
    (getEff : Breakpoint → InspectorState) : String :=
  let piece := fun (bp : Breakpoint) =>
    if bp = Breakpoint.base ∨ partialHasKeys (getBP bps bp) = true then
      let eff := getEff bp
      let pre := bpPre bp
      if eff.padding.l ≠ "" ∧ eff.padding.l ≠ "0" then
        [pre ++ "pl-" ++ eff.padding.l] else []
    else []
  String.intercalate " "
    (firstDedup (piece Breakpoint.base ++ piece Breakpoint.sm ++
      piece Breakpoint.md ++ piece Breakpoint.lg ++ piece Breakpoint.xl ++
      piece Breakpoint.x2l))

/-- Modelled from the spec: the reference computation of §4.5 that the
claim compares `useAllBreakpointClasses` to — per breakpoint in fixed
order, skip non-base breakpoints with empty override records, otherwise
take the Class Generator's (§4.3) full prefixed token output; concatenate,
deduplicate first-occurrence-wins, and join with single spaces. -/
def specGenerateAllClasses (baseState : InspectorState) (bps : BreakpointStates)
    (getEff : Breakpoint → InspectorState) : String :=
  let piece := fun (bp : Breakpoint) =>
    if bp = Breakpoint.base ∨ partialHasKeys (getBP bps bp) = true then
      (classTokens (getEff bp) bp).filter (fun c => !(c == ""))
    else []
  String.intercalate " "
    (firstDedup (piece Breakpoint.base ++ piece Breakpoint.sm ++
      piece Breakpoint.md ++ piece Breakpoint.lg ++ piece Breakpoint.xl ++
      piece Breakpoint.x2l))

/-! ## Style Generator (`useGeneratedStyles`, hooks.ts lines 429-467) -/

/-- The 3D-rotation pieces of the `transform` string (hooks.ts
lines 439-443), in fixed rotateX, rotateY, rotateZ order. -/
def transform3DParts (s : InspectorState) : List String :=
  (if s.transforms3D.rotateX ≠ 0 then
    ["rotateX(" ++ toString s.transforms3D.rotateX ++ "deg)"] else []) ++
  (if s.transforms3D.rotateY ≠ 0 then
    ["rotateY(" ++ toString s.transforms3D.rotateY ++ "deg)"] else []) ++
  (if s.transforms3D.rotateZ ≠ 0 then
    ["rotateZ(" ++ toString s.transforms3D.rotateZ ++ "deg)"] else [])

/-- The style assignments derived from the structured fields (hooks.ts
lines 431-450), in source order, before the free-form `inlineCSS` parse. -/
def baseStyles (s : InspectorState) : List (String × String) :=
  (if s.typography.textColor ≠ "" then
    [("color", s.typography.textColor)] else []) ++
  (if s.appearance.backgroundColor ≠ "" then
    [("backgroundColor", s.appearance.backgroundColor)] else []) ++
  (if s.border.color ≠ "" then
    [("borderColor", s.border.color)] else []) ++
  (if transform3DParts s ≠ [] then
    [("transform", String.intercalate " " (transform3DParts s))] else []) ++
  (if s.transforms3D.perspective > 0 then
    [("perspective", toString (s.transforms3D.perspective * 100) ++ "px")] else []) ++
  (if s.appearance.blendMode ≠ "normal" then
    [("mixBlendMode", s.appearance.blendMode)] else []) ++
  (if s.appearance.backgroundImage ≠ "" then
    [("backgroundImage", "url(" ++ s.appearance.backgroundImage ++ ")")] else [])

/-- One `;`-segment of the inline CSS parse (hooks.ts lines 455-462):
`const [prop, val] = line.split(':').map(s => s.trim()); if (prop && val)`
— the value is the (trimmed) text between the first and second colons,
the camel-cased property is assigned, and anything else is dropped. -/
def parseSegment (seg : List Char) : List (String × String) :=
  match (splitOnChar ':' seg).map trimList with
  | p :: v :: _ =>
    if p ≠ [] ∧ v ≠ [] then
      [(String.mk (camelizeChars p), String.mk v)] else []
  | _ => []

/-- The free-form `inlineCSS` parse (hooks.ts lines 453-463):
`split(';').filter(Boolean)` then per-line assignment. -/
def parseInlineCSS (css : String) : List (String × String) :=
  ((splitOnChar ';' css.data).filter (fun seg => !seg.isEmpty)).foldr
    (fun line acc => parseSegment line ++ acc) []

/-- `useGeneratedStyles` (hooks.ts lines 429-467), as the ordered sequence
of `styles[key] = value` assignments it performs. -/
def useGeneratedStyles (s : InspectorState) : List (String × String) :=
  baseStyles s ++ (if s.inlineCSS ≠ "" then parseInlineCSS s.inlineCSS else [])

/-- Reading a key from the final JS `styles` object: the last assignment to
a key wins. -/
def styleGet (styles : List (String × String)) (k : String) : Option String :=
  (styles.reverse.find? (fun kv => kv.1 == k)).map (fun kv => kv.2)

/-! ## Concrete test states.
A state in which every field holds its neutral value, so that no group
emits anything; the witnesses and counterexamples below override single
fields of it.  (It is a test vector, not a transcription of
`DEFAULT_INSPECTOR_STATE`, whose file is not part of this tree.) -/

def sampleState : InspectorState :=
  { padding := { l := "", t := "", r := "", b := "" }
    margin := { x := "", y := "" }
    position := { type := "static", zIndex := "", l := "", t := "", r := "", b := "" }
    size := { width := "", height := "", maxWidth := "", maxHeight := "",
              minWidth := "", minHeight := "" }
    typography := { fontFamily := "inter", fontWeight := "normal", fontSize := "",
                    letterSpacing := "normal", lineHeight := "", textAlign := "left",
                    textColor := "" }
    transforms := { rotate := 0, scale := 100, translateX := 0, translateY := 0,
                    skewX := 0, skewY := 0 }
    transforms3D := { rotateX := 0, rotateY := 0, rotateZ := 0, perspective := 0 }
    effects := { opacity := 100, blur := 0, backdropBlur := 0, hueRotate := 0,
                 saturation := 100, brightness := 100, contrast := 100,
                 grayscale := 0, invert := 0, sepia := 0, shadow := "none" }
    border := { width := "", style := "solid", color := "",
                radius := { all := 0, tl := 0, tr := 0, br := 0, bl := 0 } }
    appearance := { backgroundColor := "", backgroundImage := "", blendMode := "normal" }
    tag := "div"
    elementId := ""
    textContent := ""
    link := ""
    inlineCSS := ""
    tailwindClasses := [] }

/-- All four padding sides set to the unit-less `'16'`. -/
def s16all : InspectorState :=
  { sampleState with padding := { l := "16", t := "16", r := "16", b := "16" } }

/-- A state whose stored `size.width` already carries the duplicated unit
text `'16pxpx'` (size fields are stored raw and never normalized). -/
def s16w : InspectorState :=
  { sampleState with size := { sampleState.size with width := "16pxpx" } }

/-- Padding-left set to `'4'`, a member of the fixed spacing token scale. -/
def s4 : InspectorState :=
  { sampleState with padding := { l := "4", t := "", r := "", b := "" } }

/-- `size.width` set to the unit-less `'320'`. -/
def s320 : InspectorState :=
  { sampleState with size := { sampleState.size with width := "320" } }

/-- Base state with `padding.l = '16'`, the C4 failing input. -/
def b16 : InspectorState :=
  { sampleState with padding := { l := "16", t := "", r := "", b := "" } }

/-- A state whose free-form CSS field holds a declaration whose value
contains a colon. -/
def sBG : InspectorState :=
  { sampleState with inlineCSS := "background-image: url(https://x)" }

/-- A neutral state with a text color, so the structured style list is
non-empty. -/
def s9b : InspectorState :=
  { sampleState with typography := { sampleState.typography with textColor := "#ff0000" } }

/-- An override record containing only `{ padding: { l: '8' } }`. -/
def onlyPaddingL8 : PartialInspectorState :=
  { emptyPartial with padding := some { l := some "8" } }

/-- Breakpoint records with only `sm` populated (by `onlyPaddingL8`). -/
def bpsSm : BreakpointStates :=
  setBP emptyBPStates Breakpoint.sm onlyPaddingL8

/-- A store with a non-trivial `md` override, used to exercise clearing. -/
def st0 : InspectorStore :=
  ⟨sampleState, setBP emptyBPStates Breakpoint.md onlyPaddingL8⟩

/-! ## Support lemmas -/

/-- `String.append` concatenates the underlying character lists. -/
lemma strDataAppend (a b : String) : (a ++ b).data = a.data ++ b.data := rfl

/-- A stored spacing value is "clean" when, after trimming, it is empty or
starts with a character of the numeric class `[\d.-]` (so the normalizer's
regex matches instead of falling back to the raw string). -/
def cleanSpacingB (v : String) : Bool :=
  match trimList v.data with
  | [] => true
  | c :: _ => numClassChar c

/-- Unfolding of `normalizeStr` with the falsiness test resolved. -/
lemma normalizeStr_eq (v : String) :
    normalizeStr v =
      if v = "" then "" else
        if (trimList v.data).takeWhile numClassChar = [] then
          String.mk (trimList v.data)
        else String.mk ((trimList v.data).takeWhile numClassChar) := by
  unfold normalizeStr normalizeNumericValue jsFalsy jsToString
  by_cases hv : v = "" <;> simp [hv]

/-- On a clean stored value, every character the normalizer returns belongs
to the numeric class. -/
lemma normalizeStr_all_numClass {v : String} (h : cleanSpacingB v = true) :
    ∀ c ∈ (normalizeStr v).data, numClassChar c = true := by
  rw [normalizeStr_eq]
  by_cases hv : v = ""
  · simp [hv]
  · rw [if_neg hv]
    unfold cleanSpacingB at h
    cases hstr : trimList v.data with
    | nil => simp
    | cons c rest =>
      rw [hstr] at h
      have hc : numClassChar c = true := h
      have htw : (c :: rest).takeWhile numClassChar
          = c :: rest.takeWhile numClassChar := by
        simp [List.takeWhile_cons, hc]
      rw [htw]
      simp only [if_neg (by simp : ¬(c :: rest.takeWhile numClassChar = []))]
      intro x hx
      rcases List.mem_cons.mp hx with rfl | hx2
      · exact hc
      · exact List.mem_takeWhile_imp hx2

/-- A character of the numeric class is never `'p'`. -/
lemma numClass_ne_p {c : Char} (h : numClassChar c = true) : c ≠ 'p' := by
  intro hc
  subst hc
  simp [numClassChar] at h

/-- Occurrences of `'p'` in a character list. -/
def pCount (l : List Char) : Nat := (l.filter (fun c => c == 'p')).length

lemma pCount_cons (c : Char) (t : List Char) :
    pCount (c :: t) = (if c = 'p' then 1 else 0) + pCount t := by
  by_cases hc : c = 'p'
  · subst hc; simp [pCount, List.filter_cons, Nat.add_comm]
  · simp [pCount, List.filter_cons, hc]

lemma pCount_append (a b : List Char) : pCount (a ++ b) = pCount a + pCount b := by
  simp [pCount, List.filter_append]

lemma pCount_zero_iff (l : List Char) : pCount l = 0 ↔ ∀ c ∈ l, c ≠ 'p' := by
  induction l with
  | nil => simp [pCount]
  | cons c t ih =>
    rw [pCount_cons]
    by_cases hc : c = 'p'
    · subst hc; simp [ih]
    · simp [hc, ih]

/-- The string `"16pxpx"` cannot occur inside a bracketed spacing token
`pre ++ "p" ++ d ++ "-[" ++ n ++ "px]"` whose prefix and normalized value
contain no `'p'` and whose group letter `d` is neither `'x'` nor `'p'`. -/
lemma noDoublePx (preL nL a b : List Char) (d : Char)
    (hdx : d ≠ 'x') (hdp : d ≠ 'p')
    (hpre : ∀ c ∈ preL, c ≠ 'p') (hn : ∀ c ∈ nL, c ≠ 'p')
    (hab : a ++ ['1', '6', 'p', 'x', 'p', 'x'] ++ b
         = preL ++ ('p' :: d :: '-' :: '[' :: (nL ++ ('p' :: 'x' :: ']' :: [])))) :
    False := by
  have hmid : ('p' :: d :: '-' :: '[' :: (nL ++ ('p' :: 'x' :: ']' :: [])))
      = ['p'] ++ [d] ++ ['-', '['] ++ nL ++ ['p', 'x', ']'] := by simp
  have hR : pCount (preL ++ ('p' :: d :: '-' :: '[' :: (nL ++ ('p' :: 'x' :: ']' :: [])))) = 2 := by
    rw [pCount_append, hmid, pCount_append, pCount_append, pCount_append, pCount_append]
    rw [(pCount_zero_iff preL).mpr hpre, (pCount_zero_iff nL).mpr hn]
    have h1 : pCount ['p'] = 1 := by decide
    have h2 : pCount [d] = 0 := by rw [pCount_cons, if_neg hdp]; rfl
    have h3 : pCount ['-', '['] = 0 := by decide
    have h4 : pCount ['p', 'x', ']'] = 1 := by decide
    rw [h1, h2, h3, h4]
  have hL : pCount (a ++ ['1', '6', 'p', 'x', 'p', 'x'] ++ b)
      = pCount a + 2 + pCount b := by
    rw [pCount_append, pCount_append]
    have : pCount ['1', '6', 'p', 'x', 'p', 'x'] = 2 := by decide
    rw [this]
  have hcount : pCount a + 2 + pCount b = 2 := by
    rw [← hL, hab, hR]
  have ha0 : pCount a = 0 := by omega
  have haq : ∀ c ∈ a, (fun c => !(c == 'p')) c = true := by
    intro c hc
    have hcp := (pCount_zero_iff a).mp ha0 c hc
    simp [hcp]
  have hpreq : ∀ c ∈ preL, (fun c => !(c == 'p')) c = true := by
    intro c hc
    simp [hpre c hc]
  have e1 : List.dropWhile (fun c => !(c == 'p'))
      (a ++ (['1', '6', 'p', 'x', 'p', 'x'] ++ b)) = 'p' :: 'x' :: 'p' :: 'x' :: b := by
    rw [List.dropWhile_append_of_pos haq]
    rfl
  have e2 : List.dropWhile (fun c => !(c == 'p'))
      (preL ++ ('p' :: d :: '-' :: '[' :: (nL ++ ('p' :: 'x' :: ']' :: []))))
      = 'p' :: d :: '-' :: '[' :: (nL ++ ('p' :: 'x' :: ']' :: [])) := by
    rw [List.dropWhile_append_of_pos hpreq]
    rfl
  have hdrop := congrArg (List.dropWhile (fun c => !(c == 'p'))) hab
  rw [List.append_assoc, e1, e2] at hdrop
  injection hdrop with _ h3
  injection h3 with h4 _
  exact hdx h4.symm

/-- Characters of the breakpoint class prefixes never include `'p'`. -/
lemma bpPre_noP (bp : Breakpoint) : ∀ c ∈ (bpPre bp).data, c ≠ 'p' := by
  cases bp <;> decide

/-- No bracketed spacing token built over a clean stored value contains the
substring `"16pxpx"`. -/
lemma padTokenSafe (bp : Breakpoint) (v m : String) (d : Char)
    (hm : m.data = ['p', d, '-', '[']) (hdx : d ≠ 'x') (hdp : d ≠ 'p')
    (hcl : cleanSpacingB v = true) :
    ¬ containsStr (bpPre bp ++ m ++ normalizeStr v ++ "px]") "16pxpx" := by
  intro hcon
  unfold containsStr at hcon
  have hdata : (bpPre bp ++ m ++ normalizeStr v ++ "px]").data
      = (bpPre bp).data ++
        ('p' :: d :: '-' :: '[' :: ((normalizeStr v).data ++ ('p' :: 'x' :: ']' :: []))) := by
    rw [strDataAppend, strDataAppend, strDataAppend, hm]
    simp
  rw [hdata] at hcon
  have hs16 : ("16pxpx" : String).data = ['1', '6', 'p', 'x', 'p', 'x'] := rfl
  rw [hs16] at hcon
  obtain ⟨a, b, hab⟩ := hcon
  exact noDoublePx (bpPre bp).data (normalizeStr v).data a b d hdx hdp
    (bpPre_noP bp)
    (fun c hc => numClass_ne_p (normalizeStr_all_numClass hcl c hc))
    hab

/-- Membership in a conditional singleton forces equality with its element. -/
lemma memIteSingle {c : Prop} [Decidable c] {α : Type} {a x : α}
    (h : a ∈ if c then [x] else []) : a = x := by
  split at h
  · simpa using h
  · simp at h

/-- A maximal all-satisfying run: any satisfying run that starts the list is
no longer than `takeWhile`. -/
lemma takeWhile_max {p : Char → Bool} :
    ∀ (t l : List Char), t <+: l → (∀ c ∈ t, p c = true) →
      t.length ≤ (l.takeWhile p).length := by
  intro t
  induction t with
  | nil => intro l _ _; simp
  | cons c t' ih =>
    intro l hpre hall
    obtain ⟨r, hr⟩ := hpre
    have hc : p c = true := hall c (List.mem_cons_self c t')
    rw [← hr]
    simp only [List.cons_append, List.takeWhile_cons, hc, if_true, List.length_cons]
    exact Nat.succ_le_succ
      (ih (t' ++ r) ⟨r, rfl⟩ (fun x hx => hall x (List.mem_cons_of_mem c hx)))

/-- `splitOnChar` always yields at least one segment. -/
lemma splitOnChar_ne_nil (sep : Char) (l : List Char) : splitOnChar sep l ≠ [] := by
  induction l with
  | nil => simp [splitOnChar]
  | cons c t ih =>
    unfold splitOnChar
    cases h : splitOnChar sep t with
    | nil => simp
    | cons s ss => by_cases hc : c = sep <;> simp [hc]

/-- Unfolding equation for `splitOnChar` on a cons cell. -/
lemma splitOnChar_cons (sep c : Char) (rest : List Char) :
    splitOnChar sep (c :: rest) =
      match splitOnChar sep rest with
      | [] => [[]]
      | s :: ss => if c = sep then [] :: s :: ss else (c :: s) :: ss := rfl

/-- A list without the separator is a single segment. -/
lemma splitOnChar_no_sep {sep : Char} {l : List Char} (h : sep ∉ l) :
    splitOnChar sep l = [l] := by
  induction l with
  | nil => rfl
  | cons c t ih =>
    have hc : c ≠ sep := fun hh => h (hh ▸ List.mem_cons_self c t)
    have ht : sep ∉ t := fun hh => h (List.mem_cons_of_mem c hh)
    rw [splitOnChar_cons, ih ht]
    simp [hc]

/-- Splitting at the first separator occurrence. -/
lemma splitOnChar_append_sep {sep : Char} {x : List Char} (y : List Char)
    (hx : sep ∉ x) :
    splitOnChar sep (x ++ sep :: y) = x :: splitOnChar sep y := by
  induction x with
  | nil =>
    simp only [List.nil_append]
    rw [splitOnChar_cons]
    cases h : splitOnChar sep y with
    | nil => exact absurd h (splitOnChar_ne_nil sep y)
    | cons s ss => simp
  | cons c t ih =>
    have hc : c ≠ sep := fun hh => hx (hh ▸ List.mem_cons_self c t)
    have ht : sep ∉ t := fun hh => hx (List.mem_cons_of_mem c hh)
    simp only [List.cons_append]
    rw [splitOnChar_cons, ih ht]
    simp [hc]

/-- Characters of a segment come from the split list. -/
lemma mem_splitOnChar_sub {sep : Char} :
    ∀ {l x : List Char}, x ∈ splitOnChar sep l → ∀ c ∈ x, c ∈ l := by
  intro l
  induction l with
  | nil =>
    intro x hx
    simp [splitOnChar] at hx
    subst hx
    simp
  | cons c0 t ih =>
    intro x hx
    rw [splitOnChar_cons] at hx
    cases h : splitOnChar sep t with
    | nil => exact absurd h (splitOnChar_ne_nil sep t)
    | cons s ss =>
      rw [h] at hx
      replace hx : x ∈ if c0 = sep then [] :: s :: ss else (c0 :: s) :: ss := hx
      by_cases hc : c0 = sep
      · rw [if_pos hc] at hx
        rcases List.mem_cons.mp hx with rfl | hx2
        · simp
        · intro c hcx
          exact List.mem_cons_of_mem _ (ih (h ▸ hx2) c hcx)
      · rw [if_neg hc] at hx
        rcases List.mem_cons.mp hx with rfl | hx2
        · intro c hcx
          rcases List.mem_cons.mp hcx with rfl | hcs
          · exact List.mem_cons_self _ _
          · have hs : s ∈ splitOnChar sep t := by
              rw [h]; exact List.mem_cons_self s ss
            exact List.mem_cons_of_mem _ (ih hs c hcs)
        · intro c hcx
          have hxt : x ∈ splitOnChar sep t := by
            rw [h]; exact List.mem_cons_of_mem s hx2
          exact List.mem_cons_of_mem _ (ih hxt c hcx)

/-- A segment without a colon is dropped by the inline-CSS line parser. -/
lemma parseSegment_no_colon {seg : List Char} (h : ':' ∉ seg) :
    parseSegment seg = [] := by
  unfold parseSegment
  rw [splitOnChar_no_sep h]
  rfl

/-- Folding the per-segment parser over segments that all drop yields no
assignments. -/
lemma foldr_parse_nil {L : List (List Char)}
    (h : ∀ seg ∈ L, parseSegment seg = []) :
    L.foldr (fun line acc => parseSegment line ++ acc) [] = [] := by
  induction L with
  | nil => rfl
  | cons s t ih =>
    simp only [List.foldr_cons]
    rw [h s (List.mem_cons_self s t), ih (fun x hx => h x (List.mem_cons_of_mem s hx))]
    rfl

/-- Appending to a cons is never empty (JS `filter(Boolean)` keeps it). -/
lemma isEmpty_append_cons (x : List Char) (c : Char) (y : List Char) :
    (x ++ c :: y).isEmpty = false := by
  cases x <;> rfl

/-- String concatenation is associative. -/
lemma strAppend_assoc (a b c : String) : a ++ b ++ c = a ++ (b ++ c) := by
  cases a with
  | mk ad =>
    cases b with
    | mk bd =>
      cases c with
      | mk cd =>
        show String.mk (ad ++ bd ++ cd) = String.mk (ad ++ (bd ++ cd))
        exact congrArg String.mk (List.append_assoc ad bd cd)

/-- Collapsing the piecewise-built bracket token for the value `'4'`. -/
lemma tokenCollapse (a : String) : a ++ "pl-[" ++ "4" ++ "px]" = a ++ "pl-[4px]" := by
  rw [strAppend_assoc, strAppend_assoc]
  exact congrArg (fun x => a ++ x) (by decide)

/-! ## Claim theorems -/

/-- C1 counterexample: the claim's universal "for every state, its output
never contains the substring `'16pxpx'`" is false — size values are emitted
verbatim, so a state whose stored `size.width` is `'16pxpx'` makes the
Class Generator's output contain `'16pxpx'`. -/
theorem C1_counterexample :
    containsStr (useGeneratedClasses s16w Breakpoint.base) "16pxpx" := by decide

/-- C1 (amended): when all four padding sides are `'16'`, the padding group
at breakpoint `base` emits exactly `pl-[16px] pt-[16px] pr-[16px] pb-[16px]`;
and for every state whose stored padding values are clean (empty after
trimming, or starting with a character of `[\d.-]`), no emitted padding
token — at any breakpoint — contains the substring `'16pxpx'`: `px` is
appended exactly once to the normalized value. -/
theorem C1_theorem (s : InspectorState) (bp : Breakpoint) :
    (s.padding.l = "16" → s.padding.t = "16" → s.padding.r = "16" →
     s.padding.b = "16" →
      paddingClasses s (bpPre Breakpoint.base)
        = ["pl-[16px]", "pt-[16px]", "pr-[16px]", "pb-[16px]"])
    ∧ (cleanSpacingB s.padding.l = true → cleanSpacingB s.padding.t = true →
       cleanSpacingB s.padding.r = true → cleanSpacingB s.padding.b = true →
       ∀ tok ∈ paddingClasses s (bpPre bp), ¬ containsStr tok "16pxpx") := by
  constructor
  · intro h1 h2 h3 h4
    simp only [paddingClasses, h1, h2, h3, h4]
    decide
  · intro hl ht hr hb tok htok
    simp only [paddingClasses, List.mem_append] at htok
    rcases htok with (((h | h) | h) | h)
    · rw [memIteSingle h]
      exact padTokenSafe bp s.padding.l "pl-[" 'l' rfl (by decide) (by decide) hl
    · rw [memIteSingle h]
      exact padTokenSafe bp s.padding.t "pt-[" 't' rfl (by decide) (by decide) ht
    · rw [memIteSingle h]
      exact padTokenSafe bp s.padding.r "pr-[" 'r' rfl (by decide) (by decide) hr
    · rw [memIteSingle h]
      exact padTokenSafe bp s.padding.b "pb-[" 'b' rfl (by decide) (by decide) hb

/-- C1 witness: the theorem applied to the concrete all-`'16'` state. -/
theorem C1_witness :
    paddingClasses s16all (bpPre Breakpoint.base)
      = ["pl-[16px]", "pt-[16px]", "pr-[16px]", "pb-[16px]"]
    ∧ ¬ containsStr "pl-[16px]" "16pxpx" :=
  ⟨(C1_theorem s16all Breakpoint.base).1 rfl rfl rfl rfl,
   (C1_theorem s16all Breakpoint.base).2 (by decide) (by decide) (by decide)
     (by decide) "pl-[16px]" (by decide)⟩

/-- C2 counterexample: on `"1.2.3"` the source normalizer keeps the whole
`[\d.-]` run (`"1.2.3"`), while the spec's decimal-literal regex
`[-]?[0-9]*[.]?[0-9]+` would keep only `"1.2"`. -/
theorem C2_counterexample :
    normalizeNumericValue (JSVal.vstr "1.2.3") = "1.2.3"
    ∧ specNormalizeNumericValue (JSVal.vstr "1.2.3") = "1.2"
    ∧ normalizeNumericValue (JSVal.vstr "1.2.3")
        ≠ specNormalizeNumericValue (JSVal.vstr "1.2.3") :=
  ⟨rfl, rfl, by decide⟩

/-- C2 (amended): `normalizeNumericValue` is total; its result on a string
input is a prefix of the trimmed input; whenever the trimmed input has a
nonempty leading run of characters from the class `[\d.-]`, the result is
exactly that maximal run (so every character of the result belongs to the
class — the unit suffix is stripped — and by the length bound no shorter
class run is returned); when the trimmed input has no leading `[\d.-]`
character the trimmed string is returned unchanged; and the falsy inputs
`null`, `undefined`, `""` and the number `0` yield `""`. -/
theorem C2_theorem (s : String) (t : List Char)
    (ht : t <+: trimList s.data) (hall : ∀ c ∈ t, numClassChar c = true) :
    (normalizeNumericValue (JSVal.vstr s)).data <+: trimList s.data
    ∧ t.length ≤ (normalizeNumericValue (JSVal.vstr s)).data.length
    ∧ ((trimList s.data).takeWhile numClassChar ≠ [] →
        (normalizeNumericValue (JSVal.vstr s)).data
          = (trimList s.data).takeWhile numClassChar
        ∧ ∀ c ∈ (normalizeNumericValue (JSVal.vstr s)).data, numClassChar c = true)
    ∧ (s ≠ "" → (trimList s.data).takeWhile numClassChar = [] →
        normalizeNumericValue (JSVal.vstr s) = String.mk (trimList s.data))
    ∧ normalizeNumericValue JSVal.vnull = ""
    ∧ normalizeNumericValue JSVal.vundef = ""
    ∧ normalizeNumericValue (JSVal.vstr "") = ""
    ∧ normalizeNumericValue (JSVal.vnum 0) = "" := by
  have he := normalizeStr_eq s
  unfold normalizeStr at he
  refine ⟨?_, ?_, ?_, ?_, rfl, rfl, rfl, rfl⟩
  · rw [he]
    by_cases hs : s = ""
    · rw [if_pos hs]
      exact ⟨trimList s.data, by simp⟩
    · rw [if_neg hs]
      split
      · exact ⟨[], by simp⟩
      · exact ⟨(trimList s.data).dropWhile numClassChar,
          by simp [List.takeWhile_append_dropWhile]⟩
  · rw [he]
    by_cases hs : s = ""
    · subst hs
      have htl : trimList ("" : String).data = [] := rfl
      rw [htl] at ht
      obtain ⟨r, hr⟩ := ht
      have hte : t = [] := by
        cases t with
        | nil => rfl
        | cons c t2 => simp at hr
      subst hte
      simp
    · rw [if_neg hs]
      split
      · obtain ⟨r, hr⟩ := ht
        rw [← hr]
        simp
      · exact takeWhile_max t (trimList s.data) ht hall
  · rw [he]
    by_cases hs : s = ""
    · subst hs
      intro h0
      exact absurd rfl h0
    · rw [if_neg hs]
      intro h0
      rw [if_neg h0]
      exact ⟨rfl, fun c hc => List.mem_takeWhile_imp hc⟩
  · intro hs h0
    rw [he, if_neg hs, if_pos h0]

/-- C2 witness: the theorem applied at the input `"16px"` with the clean
run `['1','6']`, together with the concrete unit-stripping instance
`normalize('16px') = '16'`. -/
theorem C2_witness :
    (['1', '6'] <+: trimList ("16px" : String).data)
    ∧ ((normalizeNumericValue (JSVal.vstr "16px")).data
         <+: trimList ("16px" : String).data
       ∧ (['1', '6'] : List Char).length
           ≤ (normalizeNumericValue (JSVal.vstr "16px")).data.length
       ∧ ((trimList ("16px" : String).data).takeWhile numClassChar ≠ [] →
           (normalizeNumericValue (JSVal.vstr "16px")).data
             = (trimList ("16px" : String).data).takeWhile numClassChar
           ∧ ∀ c ∈ (normalizeNumericValue (JSVal.vstr "16px")).data,
               numClassChar c = true)
       ∧ (("16px" : String) ≠ "" →
           (trimList ("16px" : String).data).takeWhile numClassChar = [] →
           normalizeNumericValue (JSVal.vstr "16px")
             = String.mk (trimList ("16px" : String).data))
       ∧ normalizeNumericValue JSVal.vnull = ""
       ∧ normalizeNumericValue JSVal.vundef = ""
       ∧ normalizeNumericValue (JSVal.vstr "") = ""
       ∧ normalizeNumericValue (JSVal.vnum 0) = "")
    ∧ normalizeNumericValue (JSVal.vstr "16px") = "16" :=
  ⟨by decide, C2_theorem "16px" ['1', '6'] (by decide) (by decide), rfl⟩

/-- C3 counterexample: the generator actually used for the class string,
`useGeneratedClasses`, emits bracket notation for the in-scale padding
value `'4'` — `pl-[4px]`, not the token form `pl-4` the claim requires. -/
theorem C3_counterexample :
    useGeneratedClasses s4 Breakpoint.base = "pl-[4px]"
    ∧ ("pl-[4px]" : String) ≠ "pl-4" :=
  ⟨rfl, by decide⟩

/-- C3 (amended): the `getTailwindClass` utility does prefer the short token
form for in-scale spacing values (for a truthy non-`'0'` value of a `p-`/`m-`
property recognized by `isTailwindToken`, it returns
`prefix + property + '-' + normalized`); but `useGeneratedClasses` — the
function that actually produces the class string — always uses bracket
notation for padding: with `padding.l = '4'` its first padding token is
`pl-[4px]`. -/
theorem C3_theorem (property value : String) (bp : Breakpoint) (s : InspectorState) :
    (value ≠ "" → value ≠ "0" →
     (jsStartsWith property "p-" || jsStartsWith property "m-") = true →
     isTailwindToken property (normalizeStr value) = true →
     getTailwindClass property value bp
       = bpPre bp ++ property ++ "-" ++ normalizeStr value)
    ∧ (s.padding.l = "4" →
       (paddingClasses s (bpPre bp)).head? = some (bpPre bp ++ "pl-[4px]")) := by
  constructor
  · intro h1 h2 h3 h4
    simp [getTailwindClass, h1, h2, h3, h4]
  · intro h
    simp only [paddingClasses, h]
    have hnorm : normalizeStr "4" = "4" := rfl
    rw [hnorm]
    rw [if_pos (by decide : ("4" : String) ≠ "" ∧ ("4" : String) ≠ "0")]
    simp only [List.cons_append, List.nil_append, List.head?_cons]
    rw [tokenCollapse]

/-- C3 witness: the theorem applied to the property `"p-x"`, the value
`"4"` and the state with `padding.l = '4'`. -/
theorem C3_witness :
    getTailwindClass "p-x" "4" Breakpoint.base
      = bpPre Breakpoint.base ++ "p-x" ++ "-" ++ normalizeStr "4"
    ∧ (paddingClasses s4 (bpPre Breakpoint.base)).head?
        = some (bpPre Breakpoint.base ++ "pl-[4px]") :=
  ⟨( C3_theorem "p-x" "4" Breakpoint.base s4).1 (by decide) (by decide)
     (by decide) (by decide),
   ( C3_theorem "p-x" "4" Breakpoint.base s4).2 rfl⟩

/-- C4: evaluation at the failing input.  With the base state holding
`padding.l = '16'` and no overrides, the shipped `useAllBreakpointClasses`
returns `"pl-16"` (only the padding-left token, no bracket notation, no
unit), while the claim's reference computation — the full Class Generator
per breakpoint, deduplicated and joined — returns `"pl-[16px]"`. -/
theorem C4_code_bug_eval :
    useAllBreakpointClasses b16 emptyBPStates
        (fun bp => getEffectiveState b16 emptyBPStates bp) = "pl-16"
    ∧ specGenerateAllClasses b16 emptyBPStates
        (fun bp => getEffectiveState b16 emptyBPStates bp) = "pl-[16px]" :=
  ⟨rfl, rfl⟩

/-- C5: evaluation at the failing input.  For `size.width = '320'` the Class
Generator emits `w-[320]` — the raw stored value with no `px` appended —
whereas the claim (and the repository's own summary document) says `'320'`
must yield `w-[320px]`. -/
theorem C5_code_bug_eval :
    useGeneratedClasses s320 Breakpoint.base = "w-[320]"
    ∧ ("w-[320]" : String) ≠ "w-[320px]" :=
  ⟨rfl, by decide⟩

/-- C6: a breakpoint override record containing only `{padding: {l: '8'}}`
resolves to an effective state with `padding.l = '8'` and every other field
— the other padding sides, every other named group (and `border.radius` one
level deeper), and the scalar fields — structurally equal to the base
state's value. -/
theorem C6_theorem (s : InspectorState) (bps : BreakpointStates) (bp : Breakpoint)
    (h0 : bp ≠ Breakpoint.base) (h1 : getBP bps bp = onlyPaddingL8) :
    (getEffectiveState s bps bp).padding.l = "8"
    ∧ (getEffectiveState s bps bp).padding.t = s.padding.t
    ∧ (getEffectiveState s bps bp).padding.r = s.padding.r
    ∧ (getEffectiveState s bps bp).padding.b = s.padding.b
    ∧ (getEffectiveState s bps bp).margin = s.margin
    ∧ (getEffectiveState s bps bp).position = s.position
    ∧ (getEffectiveState s bps bp).size = s.size
    ∧ (getEffectiveState s bps bp).typography = s.typography
    ∧ (getEffectiveState s bps bp).transforms = s.transforms
    ∧ (getEffectiveState s bps bp).transforms3D = s.transforms3D
    ∧ (getEffectiveState s bps bp).effects = s.effects
    ∧ (getEffectiveState s bps bp).border = s.border
    ∧ (getEffectiveState s bps bp).border.radius = s.border.radius
    ∧ (getEffectiveState s bps bp).appearance = s.appearance
    ∧ (getEffectiveState s bps bp).tag = s.tag
    ∧ (getEffectiveState s bps bp).elementId = s.elementId
    ∧ (getEffectiveState s bps bp).textContent = s.textContent
    ∧ (getEffectiveState s bps bp).link = s.link
    ∧ (getEffectiveState s bps bp).inlineCSS = s.inlineCSS
    ∧ (getEffectiveState s bps bp).tailwindClasses = s.tailwindClasses := by
  simp only [getEffectiveState, h1]
  exact ⟨rfl, rfl, rfl, rfl, rfl, rfl, rfl, rfl, rfl, rfl, rfl, rfl, rfl,
    rfl, rfl, rfl, rfl, rfl, rfl, rfl⟩

/-- C6 witness: the theorem applied to the sample base state with the
`sm` bucket holding only `{padding: {l: '8'}}`. -/
theorem C6_witness :
    (getEffectiveState sampleState bpsSm Breakpoint.sm).padding.l = "8"
    ∧ (getEffectiveState sampleState bpsSm Breakpoint.sm).padding.t = sampleState.padding.t
    ∧ (getEffectiveState sampleState bpsSm Breakpoint.sm).padding.r = sampleState.padding.r
    ∧ (getEffectiveState sampleState bpsSm Breakpoint.sm).padding.b = sampleState.padding.b
    ∧ (getEffectiveState sampleState bpsSm Breakpoint.sm).margin = sampleState.margin
    ∧ (getEffectiveState sampleState bpsSm Breakpoint.sm).position = sampleState.position
    ∧ (getEffectiveState sampleState bpsSm Breakpoint.sm).size = sampleState.size
    ∧ (getEffectiveState sampleState bpsSm Breakpoint.sm).typography = sampleState.typography
    ∧ (getEffectiveState sampleState bpsSm Breakpoint.sm).transforms = sampleState.transforms
    ∧ (getEffectiveState sampleState bpsSm Breakpoint.sm).transforms3D = sampleState.transforms3D
    ∧ (getEffectiveState sampleState bpsSm Breakpoint.sm).effects = sampleState.effects
    ∧ (getEffectiveState sampleState bpsSm Breakpoint.sm).border = sampleState.border
    ∧ (getEffectiveState sampleState bpsSm Breakpoint.sm).border.radius = sampleState.border.radius
    ∧ (getEffectiveState sampleState bpsSm Breakpoint.sm).appearance = sampleState.appearance
    ∧ (getEffectiveState sampleState bpsSm Breakpoint.sm).tag = sampleState.tag
    ∧ (getEffectiveState sampleState bpsSm Breakpoint.sm).elementId = sampleState.elementId
    ∧ (getEffectiveState sampleState bpsSm Breakpoint.sm).textContent = sampleState.textContent
    ∧ (getEffectiveState sampleState bpsSm Breakpoint.sm).link = sampleState.link
    ∧ (getEffectiveState sampleState bpsSm Breakpoint.sm).inlineCSS = sampleState.inlineCSS
    ∧ (getEffectiveState sampleState bpsSm Breakpoint.sm).tailwindClasses = sampleState.tailwindClasses :=
  C6_theorem sampleState bpsSm Breakpoint.sm (by decide) rfl

/-- C7: after clearing a non-base breakpoint's overrides, the effective
state resolved for that breakpoint is structurally equal to the base
state. -/
theorem C7_theorem (st : InspectorStore) (bp : Breakpoint)
    (h : bp ≠ Breakpoint.base) :
    getEffectiveState (clearBreakpointOverrides st bp).state
      (clearBreakpointOverrides st bp).breakpointStates bp = st.state := by
  unfold clearBreakpointOverrides
  rw [if_neg h]
  show getEffectiveState st.state (setBP st.breakpointStates bp emptyPartial) bp
      = st.state
  have hg : getBP (setBP st.breakpointStates bp emptyPartial) bp = emptyPartial := by
    cases bp <;> rfl
  unfold getEffectiveState
  rw [hg]
  rfl

/-- C7 witness: clearing the populated `md` bucket of the sample store. -/
theorem C7_witness :
    getEffectiveState (clearBreakpointOverrides st0 Breakpoint.md).state
      (clearBreakpointOverrides st0 Breakpoint.md).breakpointStates Breakpoint.md
      = st0.state :=
  C7_theorem st0 Breakpoint.md (by decide)

/-- C8 counterexample: for the declaration
`background-image: url(https://x)` the parser keeps only the text between
the first and second colons — the stored value is `url(https`, not the
claim's "full text after the first colon" `url(https://x)`. -/
theorem C8_counterexample :
    styleGet (useGeneratedStyles sBG) "backgroundImage" = some "url(https"
    ∧ ("url(https" : String) ≠ "url(https://x)" :=
  ⟨rfl, by decide⟩

/-- C8 (amended): the inline-CSS parser splits on `';'`, splits each
segment on `':'`, trims both sides, camel-cases the property name and
stores the value — but the value kept is the segment between the first and
second colons only.  For a single declaration whose property and value are
colon- and semicolon-free, the parse is exactly the camel-cased trimmed
pair; and any text without a colon is silently dropped in full, never an
error. -/
theorem C8_theorem (p v : String)
    (hp1 : ':' ∉ p.data) (hp2 : ';' ∉ p.data)
    (hv1 : ':' ∉ v.data) (hv2 : ';' ∉ v.data)
    (hp3 : trimList p.data ≠ []) (hv3 : trimList v.data ≠ []) :
    parseInlineCSS (p ++ ":" ++ v)
      = [(String.mk (camelizeChars (trimList p.data)), String.mk (trimList v.data))]
    ∧ (∀ c : String, ':' ∉ c.data → parseInlineCSS c = []) := by
  constructor
  · unfold parseInlineCSS
    have hdata : (p ++ ":" ++ v).data = p.data ++ ':' :: v.data := by
      rw [strDataAppend, strDataAppend]
      simp
    rw [hdata]
    have hsem : ';' ∉ p.data ++ ':' :: v.data := by
      intro hmem
      rcases List.mem_append.mp hmem with h | h
      · exact hp2 h
      · rcases List.mem_cons.mp h with h2 | h2
        · exact absurd h2 (by decide)
        · exact hv2 h2
    rw [splitOnChar_no_sep hsem]
    have hne : (p.data ++ ':' :: v.data).isEmpty = false := isEmpty_append_cons ..
    simp only [List.filter_cons, hne, Bool.not_false, if_true, List.filter_nil,
      List.foldr_cons, List.foldr_nil, List.append_nil]
    unfold parseSegment
    rw [splitOnChar_append_sep v.data hp1, splitOnChar_no_sep hv1]
    simp only [List.map_cons, List.map_nil]
    rw [if_pos ⟨hp3, hv3⟩]
  · intro c hc
    unfold parseInlineCSS
    apply foldr_parse_nil
    intro seg hseg
    have hsub := mem_splitOnChar_sub (List.mem_of_mem_filter hseg)
    exact parseSegment_no_colon (fun hmem => hc (hsub ':' hmem))

/-- C8 witness: the theorem applied to the declaration
`border-color: red`. -/
theorem C8_witness :
    (':' ∉ ("border-color" : String).data)
    ∧ (';' ∉ ("border-color" : String).data)
    ∧ (':' ∉ (" red" : String).data)
    ∧ (';' ∉ (" red" : String).data)
    ∧ trimList ("border-color" : String).data ≠ []
    ∧ trimList (" red" : String).data ≠ []
    ∧ parseInlineCSS ("border-color" ++ ":" ++ " red")
        = [(String.mk (camelizeChars (trimList ("border-color" : String).data)),
            String.mk (trimList (" red" : String).data))] :=
  ⟨by decide, by decide, by decide, by decide, by decide, by decide,
   ( C8_theorem "border-color" " red" (by decide) (by decide) (by decide)
     (by decide) (by decide) (by decide)).1⟩

/-- C9: when `position.type` is `'static'` and `effects.opacity` is `100`,
the Class Generator emits no token for either field, and the Style
Generator's structured output never carries an `opacity` or `position`
property at all (sparse-by-default). -/
theorem C9_theorem (s : InspectorState) (bp : Breakpoint)
    (h1 : s.position.type = "static") (h2 : s.effects.opacity = 100) :
    positionTypeClass s (bpPre bp) = []
    ∧ opacityClass s (bpPre bp) = []
    ∧ ∀ kv ∈ baseStyles s, kv.1 ≠ "opacity" ∧ kv.1 ≠ "position" := by
  refine ⟨?_, ?_, ?_⟩
  · simp [positionTypeClass, h1]
  · simp [opacityClass, h2]
  · intro kv hkv
    simp only [baseStyles, List.mem_append] at hkv
    rcases hkv with ((((((h | h) | h) | h) | h) | h) | h)
    · rw [memIteSingle h]
      exact ⟨(by decide : ("color" : String) ≠ "opacity"),
        (by decide : ("color" : String) ≠ "position")⟩
    · rw [memIteSingle h]
      exact ⟨(by decide : ("backgroundColor" : String) ≠ "opacity"),
        (by decide : ("backgroundColor" : String) ≠ "position")⟩
    · rw [memIteSingle h]
      exact ⟨(by decide : ("borderColor" : String) ≠ "opacity"),
        (by decide : ("borderColor" : String) ≠ "position")⟩
    · rw [memIteSingle h]
      exact ⟨(by decide : ("transform" : String) ≠ "opacity"),
        (by decide : ("transform" : String) ≠ "position")⟩
    · rw [memIteSingle h]
      exact ⟨(by decide : ("perspective" : String) ≠ "opacity"),
        (by decide : ("perspective" : String) ≠ "position")⟩
    · rw [memIteSingle h]
      exact ⟨(by decide : ("mixBlendMode" : String) ≠ "opacity"),
        (by decide : ("mixBlendMode" : String) ≠ "position")⟩
    · rw [memIteSingle h]
      exact ⟨(by decide : ("backgroundImage" : String) ≠ "opacity"),
        (by decide : ("backgroundImage" : String) ≠ "position")⟩

/-- C9 witness: the theorem applied to a neutral state with a text color
set (so the style list is non-empty), projected at its only entry. -/
theorem C9_witness :
    positionTypeClass s9b (bpPre Breakpoint.base) = []
    ∧ opacityClass s9b (bpPre Breakpoint.base) = []
    ∧ (("color", "#ff0000").1 ≠ "opacity" ∧ ("color", "#ff0000").1 ≠ "position") :=
  ⟨(C9_theorem s9b Breakpoint.base rfl rfl).1,
   (C9_theorem s9b Breakpoint.base rfl rfl).2.1,
   (C9_theorem s9b Breakpoint.base rfl rfl).2.2 ("color", "#ff0000") (by decide)⟩

/-- C10: `clearBreakpointOverrides` touches only the addressed bucket — the
base state is unchanged, the addressed non-base bucket becomes the empty
record, every other bucket is unchanged, and clearing `base` changes
nothing at all. -/
theorem C10_theorem (st : InspectorStore) (bp bp2 : Breakpoint)
    (h : bp ≠ Breakpoint.base) (h2 : bp2 ≠ bp) :
    (clearBreakpointOverrides st bp).state = st.state
    ∧ getBP (clearBreakpointOverrides st bp).breakpointStates bp = emptyPartial
    ∧ getBP (clearBreakpointOverrides st bp).breakpointStates bp2
        = getBP st.breakpointStates bp2
    ∧ clearBreakpointOverrides st Breakpoint.base = st := by
  refine ⟨?_, ?_, ?_, ?_⟩
  · unfold clearBreakpointOverrides
    rw [if_neg h]
  · unfold clearBreakpointOverrides
    rw [if_neg h]
    show getBP (setBP st.breakpointStates bp emptyPartial) bp = emptyPartial
    cases bp <;> rfl
  · unfold clearBreakpointOverrides
    rw [if_neg h]
    show getBP (setBP st.breakpointStates bp emptyPartial) bp2
        = getBP st.breakpointStates bp2
    cases bp <;> cases bp2 <;> first | rfl | exact absurd rfl h2
  · unfold clearBreakpointOverrides
    rw [if_pos rfl]

/-- C10 witness: clearing `sm` in the sample store leaves the base state
and the populated `md` bucket intact, and clearing `base` is a no-op. -/
theorem C10_witness :
    (clearBreakpointOverrides st0 Breakpoint.sm).state = st0.state
    ∧ getBP (clearBreakpointOverrides st0 Breakpoint.sm).breakpointStates
        Breakpoint.sm = emptyPartial
    ∧ getBP (clearBreakpointOverrides st0 Breakpoint.sm).breakpointStates
        Breakpoint.md = getBP st0.breakpointStates Breakpoint.md
    ∧ clearBreakpointOverrides st0 Breakpoint.base = st0 :=
  C10_theorem st0 Breakpoint.sm Breakpoint.md (by decide) (by decide)

end Inspector
